import Mathlib

/-!
Shallow embedding of the `cli-progress-reporting` core (single tracker,
group registry, streaming push adapter) together with proofs about the
claims of its specification.

JavaScript numbers are modelled as integers (`ℤ`): the repository uses
integer work units, byte counts and millisecond-epoch timestamps.  The
one non-integer computation, `Math.round((current / total) * 100)`, is
modelled exactly: `roundPct` computes the round-half-up of the rational
`current/total*100` by flooring integer division, and the lemma
`roundPct_eq_floor` proves it equal to `⌊current/total · 100 + 1/2⌋`
over `ℚ`, which is what `Math.round` computes for these inputs.
Timestamps taken from `Date.now()` are passed in explicitly as a
`now : ℤ` parameter, one per operation call.  File-system state is a map
from paths to optional file contents; an atomic write is a pointwise
function update, matching the write-temporary-then-rename protocol whose
effect on readers is exactly the new content appearing at the path.
Fallible operations return `Except String α`, mirroring the source's
`Result<T> = { ok: true; value } | { ok: false; error }`.
-/

deriving instance DecidableEq for Except

namespace CliProgress

/-- Exact integer form of `Math.round((n / d) * 100)` for integer `n` and
positive integer `d`: round-half-up of the rational `100·n/d`, which is
`⌊(200·n + d) / (2·d)⌋`, by flooring integer division.  The lemma
`roundPct_eq_floor` below ties this to the `⌊x + 1/2⌋` form. -/
def roundPct (n d : ℤ) : ℤ := (200 * n + d).fdiv (2 * d)

/-- JavaScript `v || dflt` on an optional string: `undefined` and the
empty string (both falsy) fall back to the default. -/
def jsOrStr (v : Option String) (dflt : String) : String :=
  match v with
  | none => dflt
  | some s => if s = "" then dflt else s

/-- Structure `ProgressState` (`index.ts`): the progress entity stored in a file. -/
structure ProgressState where
  total : ℤ
  current : ℤ
  message : String
  percentage : ℤ
  startTime : ℤ
  updatedTime : ℤ
  complete : Bool
deriving DecidableEq, Repr

/-- Structure `ProgressConfig` (`index.ts`): optional tracker id and file path. -/
structure ProgressConfig where
  id : Option String := none
  filePath : Option String := none
deriving DecidableEq, Repr

/-- The single-tracker file system: contents of each path, already
decoded (the JSON layer is modelled separately for the decode claims). -/
abbrev FS := String → Option ProgressState

/-- Constant `MAX_MESSAGE_LENGTH` (`index.ts`). -/
def MAX_MESSAGE_LENGTH : ℕ := 10000

/-- A character allowed by the id regex `[a-zA-Z0-9_-]` (ASCII only,
matching the JavaScript character class). -/
def idChar (c : Char) : Bool :=
  c.isAlpha || c.isDigit || c = '_' || c = '-'

/-- Function `validateId` (`index.ts`): empty, over-255, or any character outside
`[a-zA-Z0-9_-]` is rejected.  (JS measures length in UTF-16 units while
`String.length` counts code points; the two agree on every id the regex
can accept, and both reject all others, merely via different branches.) -/
def validateId (id : String) : Except String String :=
  if id.length = 0 then .error "ID cannot be empty"
  else if id.length > 255 then .error "ID exceeds maximum length (255 characters)"
  else if id.toList.all idChar then .ok id
  else .error "ID must contain only alphanumeric characters, hyphens, and underscores"

/-- Function `validateFilePath` (`index.ts`): rejects empty paths and null bytes,
deliberately allows everything else. -/
def validateFilePath (filePath : String) : Except String String :=
  if filePath = "" then .error "File path cannot be empty"
  else if filePath.contains '\x00' then .error "File path contains null byte"
  else .ok filePath

/-- Function `validateMessage` (`index.ts`): rejects messages longer than
`MAX_MESSAGE_LENGTH`.  Defined in the source but called from nowhere. -/
def validateMessage (message : String) : Except String String :=
  if message.length > MAX_MESSAGE_LENGTH then
    .error "Message exceeds maximum length (10000 characters)"
  else .ok message

/-- The `tmpdir()` call is modelled as a fixed base directory. -/
def tmpdir : String := "/tmp"

/-- Model of `node:path`'s `join` for the two-argument uses in the source. -/
def pathJoin (a b : String) : String := a ++ "/" ++ b

/-- Function `getProgressFilePath` (`index.ts`): a truthy custom `filePath` wins
(validated only for emptiness/null bytes); otherwise the id (default
`'default'`) is validated and the path is `tmpdir/progress-{id}.json`. -/
def getProgressFilePath (config : ProgressConfig) : Except String String :=
  match config.filePath with
  | some fp =>
    if fp ≠ "" then
      match validateFilePath fp with
      | .error e => .error e
      | .ok _ => .ok fp
    else
      match validateId (jsOrStr config.id "default") with
      | .error e => .error e
      | .ok id => .ok (pathJoin tmpdir ("progress-" ++ id ++ ".json"))
  | none =>
    match validateId (jsOrStr config.id "default") with
    | .error e => .error e
    | .ok id => .ok (pathJoin tmpdir ("progress-" ++ id ++ ".json"))

/-- The read step of the mutating operations: `readProgress` under the
assumption that the stored bytes decode to a well-formed entity (the
structural checks on raw JSON are modelled separately below). -/
def readProgressS (fs : FS) (path : String) : Except String ProgressState :=
  match fs path with
  | none => .error "Progress file does not exist"
  | some st => .ok st

/-- Model of `if (message) state.message = message`: the message is replaced only
when the optional argument is present and truthy (non-empty). -/
def applyMessage (old : String) (message : Option String) : String :=
  match message with
  | none => old
  | some s => if s = "" then old else s

/-- The read-modify step of `increment` (`index.ts` lines 262-273):
clamp `current + amount` to `total`, recompute `percentage`, refresh
`updatedTime`, optionally replace `message`, raise (never clear)
`complete` when the clamped value reaches `total`. -/
def applyIncrement (state : ProgressState) (amount : ℤ) (message : Option String)
    (now : ℤ) : ProgressState :=
  let current := min (state.current + amount) state.total
  { state with
    current := current
    percentage := roundPct current state.total
    updatedTime := now
    message := applyMessage state.message message
    complete := if current ≥ state.total then true else state.complete }

/-- The read-modify step of `set` (`index.ts` lines 312-323): like
`applyIncrement` but with `current' = min(value, total)`. -/
def applySet (state : ProgressState) (value : ℤ) (message : Option String)
    (now : ℤ) : ProgressState :=
  let current := min value state.total
  { state with
    current := current
    percentage := roundPct current state.total
    updatedTime := now
    message := applyMessage state.message message
    complete := if current ≥ state.total then true else state.complete }

/-- The read-modify step of `finish` (`index.ts` lines 356-364): force
`current = total`, `percentage = 100`, `complete = true`. -/
def applyFinish (state : ProgressState) (message : Option String)
    (now : ℤ) : ProgressState :=
  { state with
    current := state.total
    percentage := 100
    complete := true
    updatedTime := now
    message := applyMessage state.message message }

/-- Function `init` (`index.ts`): validate `total`, build the fresh entity,
resolve the path, write atomically.  (`isNaN(total)` has no analogue on
`ℤ`; the `total <= 0` rejection is the modelled check.) -/
def init (total : ℤ) (message : String) (config : ProgressConfig)
    (fs : FS) (now : ℤ) : Except String (ProgressState × FS) :=
  if total ≤ 0 then .error "Total must be a valid number greater than 0"
  else
    let state : ProgressState :=
      { total := total, current := 0, message := message, percentage := 0
        startTime := now, updatedTime := now, complete := false }
    match getProgressFilePath config with
    | .error e => .error e
    | .ok path => .ok (state, fun p => if p = path then some state else fs p)

/-- Function `increment` (`index.ts`): reject negative amounts before any
file-system access, then read-modify-write. -/
def increment (amount : ℤ) (message : Option String) (config : ProgressConfig)
    (fs : FS) (now : ℤ) : Except String (ProgressState × FS) :=
  if amount < 0 then .error "Increment amount must be non-negative"
  else
    match getProgressFilePath config with
    | .error e => .error e
    | .ok path =>
      match readProgressS fs path with
      | .error e => .error e
      | .ok state =>
        let state' := applyIncrement state amount message now
        .ok (state', fun p => if p = path then some state' else fs p)

/-- Function `set` (`index.ts`): reject negative values before any file-system
access, then read-modify-write with `current' = min(value, total)`. -/
def setOp (value : ℤ) (message : Option String) (config : ProgressConfig)
    (fs : FS) (now : ℤ) : Except String (ProgressState × FS) :=
  if value < 0 then .error "Current value must be non-negative"
  else
    match getProgressFilePath config with
    | .error e => .error e
    | .ok path =>
      match readProgressS fs path with
      | .error e => .error e
      | .ok state =>
        let state' := applySet state value message now
        .ok (state', fun p => if p = path then some state' else fs p)

/-- Function `finish` (`index.ts`): read-modify-write forcing completion. -/
def finish (message : Option String) (config : ProgressConfig)
    (fs : FS) (now : ℤ) : Except String (ProgressState × FS) :=
  match getProgressFilePath config with
  | .error e => .error e
  | .ok path =>
    match readProgressS fs path with
    | .error e => .error e
    | .ok state =>
      let state' := applyFinish state message now
      .ok (state', fun p => if p = path then some state' else fs p)

/-- Function `get` (`index.ts`): pure read. -/
def getOp (config : ProgressConfig) (fs : FS) : Except String ProgressState :=
  match getProgressFilePath config with
  | .error e => .error e
  | .ok path => readProgressS fs path

/-- Function `clear` (`index.ts`): delete the backing file; deleting an absent
file is a success (the `existsSync` guard), so the net effect is the
path mapping to `none`. -/
def clearOp (config : ProgressConfig) (fs : FS) : Except String FS :=
  match getProgressFilePath config with
  | .error e => .error e
  | .ok path => .ok (fun p => if p = path then none else fs p)

/-! ### JSON layer: the structural checks performed on stored bytes

`readProgress` parses the file with `JSON.parse` and casts the result;
the only structural validation is `typeof state.total === 'number' &&
typeof state.current === 'number'`.  `MultiProgress.readState` casts
with no validation at all.  What `JSON.parse` can produce is modelled as
a document: a top-level object with primitive-or-composite field values,
or a non-object value. -/

/-- A JSON field value as far as the `typeof` checks can distinguish it;
nested arrays/objects are collapsed into `composite` (their `typeof` is
`'object'`, never `'number'`). -/
inductive JVal where
  | num (n : ℤ)
  | str (s : String)
  | jbool (b : Bool)
  | jnull
  | composite
deriving DecidableEq, Repr

/-- A parsed JSON document: a top-level object or a non-object value. -/
inductive JsonDoc where
  | jobj (fields : List (String × JVal))
  | jprim (v : JVal)
deriving DecidableEq, Repr

/-- Bytes on disk: either text that `JSON.parse` accepts, or not. -/
inductive FileContent where
  | valid (doc : JsonDoc)
  | malformed
deriving DecidableEq, Repr

/-- Property lookup on a parsed object (`JSON.parse` keeps the last
occurrence of a duplicated key); `none` is JavaScript's `undefined`. -/
def jget (fields : List (String × JVal)) (key : String) : Option JVal :=
  fields.reverse.lookup key

/-- Check `typeof v === 'number'` for a possibly-absent property. -/
def isNumberField : Option JVal → Bool
  | some (.num _) => true
  | _ => false

/-- Function `readProgress` (`index.ts`): missing file, parse failure, then the
structure check — only `total` and `current` are required to be numbers;
on success the parsed document is returned as-is (the `as ProgressState`
cast).  A non-object document fails the property check (property access
on `null` throws, caught by the surrounding `try`; on other primitives
it yields `undefined`) — an error either way. -/
def readProgress (file : Option FileContent) : Except String JsonDoc :=
  match file with
  | none => .error "Progress file does not exist"
  | some .malformed => .error "Failed to read progress: JSON parse error"
  | some (.valid doc) =>
    match doc with
    | .jobj fields =>
      if isNumberField (jget fields "total") && isNumberField (jget fields "current") then
        .ok doc
      else .error "Invalid progress file format"
    | .jprim .jnull => .error "Failed to read progress: cannot read properties of null"
    | .jprim _ => .error "Invalid progress file format"

/-- Method `MultiProgress.readState` (`multi-progress.ts`): missing file and
parse failure are the only error cases; the parsed document is returned
with no structural validation whatsoever (the `as MultiProgressState`
cast). -/
def readStateJson (file : Option FileContent) : Except String JsonDoc :=
  match file with
  | none => .error "Multi-progress not initialized"
  | some .malformed => .error "Failed to read multi-progress state: JSON parse error"
  | some (.valid doc) => .ok doc

/-! ### Group registry (`multi-progress.ts`)

The aggregate document is modelled at the state level (a well-formed
`MultiProgressState`); `readStateJson` above covers the raw-bytes
checks.  The world holds the single-tracker file system plus the
aggregate file's contents.  `Date.now()` is again an explicit `now`. -/

/-- Metadata `meta` of `MultiProgressState`. -/
structure MultiMeta where
  created : ℤ
  updated : ℤ
deriving DecidableEq, Repr

/-- Structure `MultiProgressState` (`multi-progress.ts`): tracker-id-keyed map of
entity snapshots plus metadata.  JS objects keep insertion order, so the
map is an association list; keys are unique in every state the code
builds. -/
structure MultiProgressState where
  trackers : List (String × ProgressState)
  meta : MultiMeta
deriving DecidableEq, Repr

/-- Insert-or-replace, `obj[k] = v` on an insertion-ordered
string-keyed object, and `Map.prototype.set` on a JS `Map`. -/
def objSet {α : Type} (l : List (String × α)) (k : String) (v : α) :
    List (String × α) :=
  if l.any (fun kv => kv.1 = k) then
    l.map (fun kv => if kv.1 = k then (k, v) else kv)
  else l ++ [(k, v)]

/-- Deletion, `delete obj[k]`, and `Map.prototype.delete`. -/
def objDelete {α : Type} (l : List (String × α)) (k : String) :
    List (String × α) :=
  l.filter (fun kv => kv.1 ≠ k)

/-- Keyed access, `obj[k]`, as an optional value. -/
def objGet {α : Type} (l : List (String × α)) (k : String) : Option α :=
  l.lookup k

/-- The file-system state the group registry touches: the individual
tracker files plus the group's aggregate file (kept as a separate
component; its path `progress-multi-{id}.json` is disjoint from the
member paths the registry itself derives). -/
structure MPWorld where
  fs : FS
  agg : Option MultiProgressState

/-- Structure `MultiProgressConfig` (`multi-progress.ts`). -/
structure MultiProgressConfig where
  id : Option String := none
  filePath : Option String := none
deriving DecidableEq, Repr

/-- Structure `MultiProgressTrackerConfig` (`multi-progress.ts`). -/
structure MultiProgressTrackerConfig where
  total : ℤ
  message : String
  trackerId : Option String := none
deriving Repr

/-- The in-process `MultiProgress` instance: the group id, the resolved
aggregate path, and the id-keyed map of in-process member handles (a
`ProgressTracker` handle is just its captured `ProgressConfig`). -/
structure MultiProgress where
  id : String
  filePath : String
  trackers : List (String × ProgressConfig)

/-- The `MultiProgress` constructor: resolve id (default `'default'`,
never validated) and aggregate path, then `existsSync` + write of an
empty aggregate when the file is absent.  Note the filesystem is
accessed with the path built from the raw id. -/
def MultiProgress.construct (config : MultiProgressConfig) (w : MPWorld) (now : ℤ) :
    MultiProgress × MPWorld :=
  let id := jsOrStr config.id "default"
  let filePath := jsOrStr config.filePath
    (pathJoin tmpdir ("progress-multi-" ++ id ++ ".json"))
  let mp : MultiProgress := { id := id, filePath := filePath, trackers := [] }
  match w.agg with
  | some _ => (mp, w)
  | none =>
    (mp, { w with agg := some { trackers := [], meta := { created := now, updated := now } } })

/-- The member handle `add` builds: `new ProgressTracker({..., id:
`${this.id}-${trackerId}`})` captures this config. -/
def memberConfig (groupId trackerId : String) : ProgressConfig :=
  { id := some (groupId ++ "-" ++ trackerId), filePath := none }

/-- Method `MultiProgress.add` (`multi-progress.ts`): resolve the member id
(caller-supplied or generated), construct the member tracker (its
constructor runs `init` and throws on failure — the `.error` case),
retain the handle, then best-effort mirror: read the aggregate, and only
if that succeeds re-read the member file and write the member's snapshot
into the aggregate.  A failed aggregate read (or member re-read) is
silently skipped; the member handle is returned regardless. -/
def MultiProgress.add (mp : MultiProgress) (config : MultiProgressTrackerConfig)
    (genId : String) (w : MPWorld) (now : ℤ) :
    Except String (MultiProgress × MPWorld × ProgressConfig) :=
  let trackerId := jsOrStr config.trackerId genId
  let tcfg := memberConfig mp.id trackerId
  match init config.total config.message tcfg w.fs now with
  | .error e => .error ("Failed to initialize progress tracker: " ++ e)
  | .ok (_, fs') =>
    let mp' := { mp with trackers := objSet mp.trackers trackerId tcfg }
    match w.agg with
    | none => .ok (mp', { w with fs := fs' }, tcfg)
    | some aggSt =>
      match getOp tcfg fs' with
      | .error _ => .ok (mp', { w with fs := fs' }, tcfg)
      | .ok snap =>
        let aggSt' : MultiProgressState :=
          { trackers := objSet aggSt.trackers trackerId snap
            meta := { aggSt.meta with updated := now } }
        .ok (mp', { fs := fs', agg := some aggSt' }, tcfg)

/-- Method `MultiProgress.status` (`multi-progress.ts`): returns the on-disk
aggregate verbatim (`readState`). -/
def MultiProgress.status (w : MPWorld) : Except String MultiProgressState :=
  match w.agg with
  | none => .error "Multi-progress not initialized"
  | some st => .ok st

/-- Method `MultiProgress.remove` (`multi-progress.ts`): unknown ids fail; the
member's own file is cleared (result ignored) and the handle dropped;
then best-effort mirror: delete the member's aggregate entry and rewrite
— silently skipped when the aggregate read fails.  Returns ok either
way. -/
def MultiProgress.remove (mp : MultiProgress) (trackerId : String) (w : MPWorld)
    (now : ℤ) : Except String (MultiProgress × MPWorld) :=
  match objGet mp.trackers trackerId with
  | none => .error ("Tracker not found: " ++ trackerId)
  | some tcfg =>
    let fs' := match clearOp tcfg w.fs with
      | .ok fs' => fs'
      | .error _ => w.fs
    let mp' := { mp with trackers := objDelete mp.trackers trackerId }
    match w.agg with
    | none => .ok (mp', { w with fs := fs' })
    | some aggSt =>
      let aggSt' : MultiProgressState :=
        { trackers := objDelete aggSt.trackers trackerId
          meta := { aggSt.meta with updated := now } }
      .ok (mp', { fs := fs', agg := some aggSt' })

/-- First loop of `MultiProgress.done`: `tracker.done()` on every
in-process member in insertion order, each result ignored. -/
def doneFold (trackers : List (String × ProgressConfig)) (fs : FS) (now : ℤ) : FS :=
  trackers.foldl
    (fun fs kv =>
      match finish none kv.2 fs now with
      | .ok r => r.2
      | .error _ => fs) fs

/-- Method `MultiProgress.done` (`multi-progress.ts`): `finish` every
in-process member (results ignored), then best-effort mirror: read the
aggregate and, if that succeeds, re-read each member and write its fresh
snapshot in — silently skipped when the aggregate read fails.  Returns
ok either way. -/
def MultiProgress.done (mp : MultiProgress) (w : MPWorld) (now : ℤ) :
    Except String (MultiProgress × MPWorld) :=
  let fs' := doneFold mp.trackers w.fs now
  match w.agg with
  | none => .ok (mp, { w with fs := fs' })
  | some aggSt =>
    let trackers' := mp.trackers.foldl
      (fun ts kv =>
        match getOp kv.2 fs' with
        | .ok snap => objSet ts kv.1 snap
        | .error _ => ts) aggSt.trackers
    .ok (mp, { fs := fs'
               agg := some { trackers := trackers', meta := { aggSt.meta with updated := now } } })

/-! ### Push streaming adapter (`stream-wrapper.ts`)

`ProgressTransform` wraps a tracker with a fixed config; since the
adapter drives one tracker at one path, its backing file is carried
directly (the tracker's path plumbing is exercised by the single-tracker
theorems).  Byte counts are naturals; `bytesProcessed` never falls below
`lastEmittedBytes`, so the emission comparison, written here without
subtraction, is the source's `bytesProcessed - lastEmittedBytes >=
updateInterval` over unbounded integers. -/

/-- The mutable state of a `ProgressTransform`: the wrapped tracker's
backing file, the configured threshold (`updateInterval ?? 0`), and the
two byte counters. -/
structure ProgressTransform where
  file : Option ProgressState
  updateInterval : ℕ
  bytesProcessed : ℕ
  lastEmittedBytes : ℕ
deriving DecidableEq, Repr

/-- Method `ProgressTransform._transform` (`stream-wrapper.ts` lines 80-101):
add the chunk size, `set()` the cumulative count on the tracker
(failures abort via the error callback), then emit a `'progress'`
notification iff the threshold is zero or the bytes accumulated since
the last notification reach it.  Returns the new adapter state and the
emitted state, if any. -/
def transformStep (t : ProgressTransform) (chunkSize : ℕ) (now : ℤ) :
    Except String (ProgressTransform × Option ProgressState) :=
  let bytes := t.bytesProcessed + chunkSize
  match t.file with
  | none => .error "Progress tracking error: Progress file does not exist"
  | some st =>
    let st' := applySet st (bytes : ℤ) none now
    if t.updateInterval = 0 ∨ bytes ≥ t.lastEmittedBytes + t.updateInterval then
      .ok ({ t with file := some st', bytesProcessed := bytes, lastEmittedBytes := bytes },
           some st')
    else
      .ok ({ t with file := some st', bytesProcessed := bytes }, none)

/-- Method `ProgressTransform._flush` (`stream-wrapper.ts` lines 109-119): at
end-of-stream, `done()` the tracker (failures abort via the error
callback) and emit one final `'progress'` notification with the finished
state, with no throttling check. -/
def transformFlush (t : ProgressTransform) (now : ℤ) :
    Except String (ProgressTransform × ProgressState) :=
  match t.file with
  | none => .error "Failed to complete progress: Progress file does not exist"
  | some st =>
    let st' := applyFinish st none now
    .ok ({ t with file := some st' }, st')

/-! ### Helper lemmas -/

/-- Bridging lemma: for positive `d`, `roundPct n d` is exactly what
`Math.round((n / d) * 100)` computes, the round-half-up `⌊n/d·100 + 1/2⌋`. -/
theorem roundPct_eq_floor (n d : ℤ) (hd : 0 < d) :
    roundPct n d = ⌊((n : ℚ) / (d : ℚ)) * 100 + 1/2⌋ := by
  have hd0 : (d : ℚ) ≠ 0 := by exact_mod_cast hd.ne'
  have h1 : ((n : ℚ) / d) * 100 + 1/2 = ((200 * n + d : ℤ) : ℚ) / ((2 * d : ℤ) : ℚ) := by
    push_cast
    field_simp
    ring
  rw [h1]
  have h2d : (0 : ℤ) < 2 * d := by omega
  lift (2 * d : ℤ) to ℕ using h2d.le with m hm
  rw [show (((m : ℤ) : ℚ)) = ((m : ℕ) : ℚ) by push_cast; ring]
  rw [Rat.floor_intCast_div_natCast]
  rw [roundPct, ← hm]
  exact Int.fdiv_eq_ediv _ (Int.natCast_nonneg m)

/-- Value of `roundPct` at `current = 0`. -/
theorem roundPct_zero (d : ℤ) (hd : 0 < d) : roundPct 0 d = 0 := by
  rw [roundPct_eq_floor 0 d hd]
  norm_num

/-- Value of `roundPct` at `current = total`. -/
theorem roundPct_self (d : ℤ) (hd : 0 < d) : roundPct d d = 100 := by
  rw [roundPct_eq_floor d d hd]
  rw [div_self (by exact_mod_cast hd.ne' : (d : ℚ) ≠ 0)]
  norm_num

/-- An id accepted by `validateId` is nonempty. -/
theorem validateId_ok_ne_empty {i j : String} (h : validateId i = .ok j) : i ≠ "" := by
  intro e
  rw [e] at h
  rw [show validateId "" = .error "ID cannot be empty" from by decide] at h
  exact Except.noConfusion h

/-- Path resolution for a config holding a validated id and no custom
path. -/
theorem getProgressFilePath_id {i : String} (h : validateId i = .ok i) :
    getProgressFilePath ⟨some i, none⟩ =
      .ok (pathJoin tmpdir ("progress-" ++ i ++ ".json")) := by
  have hne : i ≠ "" := validateId_ok_ne_empty h
  simp [getProgressFilePath, jsOrStr, hne, h]

/-- Unfolding of a successful `increment`. -/
theorem increment_ok {s : ProgressState} {config : ProgressConfig} {fs : FS} {path : String}
    (amount : ℤ) (m : Option String) (now : ℤ)
    (hpath : getProgressFilePath config = .ok path) (hfile : fs path = some s)
    (hamt : 0 ≤ amount) :
    increment amount m config fs now =
      .ok (applyIncrement s amount m now,
           fun p => if p = path then some (applyIncrement s amount m now) else fs p) := by
  have h0 : ¬ amount < 0 := not_lt.2 hamt
  simp [increment, h0, hpath, readProgressS, hfile]

/-- Unfolding of a successful `set`. -/
theorem setOp_ok {s : ProgressState} {config : ProgressConfig} {fs : FS} {path : String}
    (value : ℤ) (m : Option String) (now : ℤ)
    (hpath : getProgressFilePath config = .ok path) (hfile : fs path = some s)
    (hval : 0 ≤ value) :
    setOp value m config fs now =
      .ok (applySet s value m now,
           fun p => if p = path then some (applySet s value m now) else fs p) := by
  have h0 : ¬ value < 0 := not_lt.2 hval
  simp [setOp, h0, hpath, readProgressS, hfile]

/-- Unfolding of a successful `finish`. -/
theorem finish_ok {s : ProgressState} {config : ProgressConfig} {fs : FS} {path : String}
    (m : Option String) (now : ℤ)
    (hpath : getProgressFilePath config = .ok path) (hfile : fs path = some s) :
    finish m config fs now =
      .ok (applyFinish s m now,
           fun p => if p = path then some (applyFinish s m now) else fs p) := by
  simp [finish, hpath, readProgressS, hfile]

/-- Unfolding of a successful `get`. -/
theorem getOp_ok {s : ProgressState} {config : ProgressConfig} {fs : FS} {path : String}
    (hpath : getProgressFilePath config = .ok path) (hfile : fs path = some s) :
    getOp config fs = .ok s := by
  simp [getOp, hpath, readProgressS, hfile]

/-- Unfolding of a successful `init`. -/
theorem init_ok {config : ProgressConfig} {path : String}
    (total : ℤ) (message : String) (fs : FS) (now : ℤ)
    (hpath : getProgressFilePath config = .ok path) (htot : 0 < total) :
    init total message config fs now =
      .ok (⟨total, 0, message, 0, now, now, false⟩,
           fun p => if p = path then some ⟨total, 0, message, 0, now, now, false⟩
                    else fs p) := by
  have h0 : ¬ total ≤ 0 := not_le.2 htot
  simp [init, h0, hpath]

/-! ### Claim theorems -/

/-- Claim C1, counterexample to the stated biconditional: on the stored
state `{total 10, current 10, complete true}` (as produced by `finish`),
`set(3)` writes back `current = 3 < total = 10` yet `complete = true`,
so the written `complete` flag is not equal to `current' >= total`. -/
theorem c1_counterexample :
    (setOp 3 none ⟨some "t", none⟩
        (fun p => if p = "/tmp/progress-t.json" then
          some ⟨10, 10, "m", 100, 0, 0, true⟩ else none) 1).toOption.map
      (fun r => (r.1.complete, r.1.current, r.1.total)) = some (true, 3, 10) := by
  decide

/-- Claim C1 (amended): for every stored entity state and non-negative
amount/value, `increment` and `set` write back a state with
`current' = min(current+amount, total)` (resp. `min(value, total)`),
`percentage = round(current'/total·100)` (the genuine `⌊x + 1/2⌋`
rounding, via `roundPct_eq_floor`), `updatedTime = now`, and
`complete' = (previous complete OR current' >= total)` — the flag is
raised exactly when `current'` reaches `total` but is never cleared, so
only the forward direction of the claimed biconditional holds in
general. -/
theorem c1_increment_set_write (s : ProgressState) (amount value now : ℤ)
    (m : Option String) (config : ProgressConfig) (fs : FS) (path : String)
    (hpath : getProgressFilePath config = .ok path) (hfile : fs path = some s)
    (hamt : 0 ≤ amount) (hval : 0 ≤ value) (htot : 0 < s.total) :
    (∃ fs₁, increment amount m config fs now = .ok (applyIncrement s amount m now, fs₁) ∧
      fs₁ path = some (applyIncrement s amount m now)) ∧
    (∃ fs₂, setOp value m config fs now = .ok (applySet s value m now, fs₂) ∧
      fs₂ path = some (applySet s value m now)) ∧
    (applyIncrement s amount m now).current = min (s.current + amount) s.total ∧
    (applySet s value m now).current = min value s.total ∧
    (applyIncrement s amount m now).percentage =
      ⌊((applyIncrement s amount m now).current : ℚ) / (s.total : ℚ) * 100 + 1/2⌋ ∧
    (applySet s value m now).percentage =
      ⌊((applySet s value m now).current : ℚ) / (s.total : ℚ) * 100 + 1/2⌋ ∧
    (applyIncrement s amount m now).updatedTime = now ∧
    (applySet s value m now).updatedTime = now ∧
    ((applyIncrement s amount m now).complete = true ↔
      (s.complete = true ∨ s.total ≤ (applyIncrement s amount m now).current)) ∧
    ((applySet s value m now).complete = true ↔
      (s.complete = true ∨ s.total ≤ (applySet s value m now).current)) := by
  refine ⟨⟨_, increment_ok amount m now hpath hfile hamt, if_pos rfl⟩,
          ⟨_, setOp_ok value m now hpath hfile hval, if_pos rfl⟩,
          rfl, rfl, ?_, ?_, rfl, rfl, ?_, ?_⟩
  · exact roundPct_eq_floor _ _ htot
  · exact roundPct_eq_floor _ _ htot
  · show (if min (s.current + amount) s.total ≥ s.total then true else s.complete) = true ↔ _
    split_ifs with h
    · exact ⟨fun _ => Or.inr h, fun _ => rfl⟩
    · refine ⟨fun hc => Or.inl hc, ?_⟩
      rintro (hc | hle)
      · exact hc
      · exact absurd hle h
  · show (if min value s.total ≥ s.total then true else s.complete) = true ↔ _
    split_ifs with h
    · exact ⟨fun _ => Or.inr h, fun _ => rfl⟩
    · refine ⟨fun hc => Or.inl hc, ?_⟩
      rintro (hc | hle)
      · exact hc
      · exact absurd hle h

/-- Witness for `c1_increment_set_write` at a concrete input: the
hypotheses hold at `total = 10, current = 4, amount = 3`, and the
theorem yields the clamped-write equation there. -/
theorem c1_witness :
    (0:ℤ) ≤ 3 ∧ (0:ℤ) ≤ 7 ∧
    (0:ℤ) < (⟨10, 4, "m", 40, 0, 2, false⟩ : ProgressState).total ∧
    getProgressFilePath ⟨some "t", none⟩ = .ok "/tmp/progress-t.json" ∧
    ((fun p => if p = "/tmp/progress-t.json" then
        some (⟨10, 4, "m", 40, 0, 2, false⟩ : ProgressState) else none) :
      FS) "/tmp/progress-t.json" = some ⟨10, 4, "m", 40, 0, 2, false⟩ ∧
    (applyIncrement ⟨10, 4, "m", 40, 0, 2, false⟩ 3 (some "x") 5).current = min (4 + 3) 10 :=
  ⟨by decide, by decide, by decide, by decide, by decide,
    (c1_increment_set_write ⟨10, 4, "m", 40, 0, 2, false⟩ 3 7 5 (some "x")
      ⟨some "t", none⟩
      (fun p => if p = "/tmp/progress-t.json" then
        some ⟨10, 4, "m", 40, 0, 2, false⟩ else none)
      "/tmp/progress-t.json" (by decide) (by decide)
      (by decide) (by decide) (by decide)).2.2.1⟩

/-- Predicate packaging the spec §3 invariants of a stored entity:
`0 ≤ current ≤ total`, `total > 0`, `percentage = round(current/total·100)`
(`roundPct` is the exact rounding by `roundPct_eq_floor`), and
`startTime ≤ updatedTime`. -/
def Inv (s : ProgressState) : Prop :=
  0 ≤ s.current ∧ s.current ≤ s.total ∧ 0 < s.total ∧
  s.percentage = roundPct s.current s.total ∧ s.startTime ≤ s.updatedTime

instance : DecidablePred Inv := fun s => by unfold Inv; infer_instance

/-- Claim C2 (confirmed): `init` establishes the four invariants, and
each of `increment`, `set`, `finish` preserves them for every stored
state satisfying them (with a non-negative amount/value, and a call time
no earlier than the recorded `startTime`); in particular the written
`current` never leaves `[0, total]`. -/
theorem c2_invariants :
    (∀ (total : ℤ) (message : String) (config : ProgressConfig) (fs : FS) (now : ℤ)
      (r : ProgressState × FS), init total message config fs now = .ok r → Inv r.1) ∧
    (∀ (s : ProgressState) (amount : ℤ) (m : Option String) (now : ℤ),
      Inv s → 0 ≤ amount → s.startTime ≤ now → Inv (applyIncrement s amount m now)) ∧
    (∀ (s : ProgressState) (value : ℤ) (m : Option String) (now : ℤ),
      Inv s → 0 ≤ value → s.startTime ≤ now → Inv (applySet s value m now)) ∧
    (∀ (s : ProgressState) (m : Option String) (now : ℤ),
      Inv s → s.startTime ≤ now → Inv (applyFinish s m now)) := by
  refine ⟨?_, ?_, ?_, ?_⟩
  · intro total message config fs now r h
    rw [init] at h
    split_ifs at h with htot
    revert h
    match hp : getProgressFilePath config with
    | .error e => intro h; exact absurd h (by simp)
    | .ok path =>
      intro h
      simp only [Except.ok.injEq] at h
      have htot' : 0 < total := by omega
      have : r.1 = ⟨total, 0, message, 0, now, now, false⟩ := by
        rw [← h]
      rw [this]
      exact ⟨le_refl 0, htot'.le, htot', (roundPct_zero total htot').symm, le_refl now⟩
  · intro s amount m now hInv hamt hnow
    obtain ⟨h1, h2, h3, h4, h5⟩ := hInv
    exact ⟨le_min (by linarith) h3.le, min_le_right _ _, h3, rfl, hnow⟩
  · intro s value m now hInv hval hnow
    obtain ⟨h1, h2, h3, h4, h5⟩ := hInv
    exact ⟨le_min hval h3.le, min_le_right _ _, h3, rfl, hnow⟩
  · intro s m now hInv hnow
    obtain ⟨h1, h2, h3, h4, h5⟩ := hInv
    exact ⟨h3.le, le_refl _, h3, (roundPct_self s.total h3).symm, hnow⟩

/-- Witness for `c2_invariants` at concrete inputs. -/
theorem c2_witness :
    (init 10 "m" ⟨some "t", none⟩ (fun _ => none) 7 =
      .ok (⟨10, 0, "m", 0, 7, 7, false⟩,
        fun p => if p = "/tmp/progress-t.json" then
          some ⟨10, 0, "m", 0, 7, 7, false⟩ else (fun _ => none) p) ∧
      Inv ⟨10, 0, "m", 0, 7, 7, false⟩) ∧
    (Inv ⟨10, 3, "m", 30, 5, 6, false⟩ ∧ (0:ℤ) ≤ 2 ∧ (5:ℤ) ≤ 8 ∧
      Inv (applyIncrement ⟨10, 3, "m", 30, 5, 6, false⟩ 2 none 8)) ∧
    Inv (applySet ⟨10, 3, "m", 30, 5, 6, false⟩ 9 (some "x") 8) ∧
    Inv (applyFinish ⟨10, 3, "m", 30, 5, 6, false⟩ none 8) :=
  ⟨⟨rfl, c2_invariants.1 10 "m" ⟨some "t", none⟩ (fun _ => none) 7 _ rfl⟩,
   ⟨by decide, by decide, by decide,
    c2_invariants.2.1 ⟨10, 3, "m", 30, 5, 6, false⟩ 2 none 8 (by decide) (by decide) (by decide)⟩,
   c2_invariants.2.2.1 ⟨10, 3, "m", 30, 5, 6, false⟩ 9 (some "x") 8 (by decide) (by decide) (by decide),
   c2_invariants.2.2.2 ⟨10, 3, "m", 30, 5, 6, false⟩ none 8 (by decide) (by decide)⟩

/-- Claim C9 (confirmed): the `complete` flag is monotone — the states
written back by `increment`, `set` and `finish` keep `complete = true`
whenever the stored state had it, even when `set` lowers `current`
strictly below `total` (the mutation code only ever raises the flag). -/
theorem c9_complete_monotone (s : ProgressState) (amount value : ℤ)
    (mi ms mf : Option String) (n₁ n₂ n₃ : ℤ) (h : s.complete = true) :
    (applyIncrement s amount mi n₁).complete = true ∧
    (applySet s value ms n₂).complete = true ∧
    (applyFinish s mf n₃).complete = true := by
  refine ⟨?_, ?_, rfl⟩
  · show (if _ ≥ s.total then true else s.complete) = true
    split_ifs <;> simp [h]
  · show (if _ ≥ s.total then true else s.complete) = true
    split_ifs <;> simp [h]

/-- Witness for `c9_complete_monotone`: a completed tracker stays
complete across an increment, a lowering set, and a finish. -/
theorem c9_witness :
    (⟨10, 10, "m", 100, 0, 0, true⟩ : ProgressState).complete = true ∧
    (applyIncrement ⟨10, 10, "m", 100, 0, 0, true⟩ 0 none 1).complete = true ∧
    (applySet ⟨10, 10, "m", 100, 0, 0, true⟩ 3 none 2).complete = true ∧
    (applyFinish ⟨10, 10, "m", 100, 0, 0, true⟩ none 3).complete = true :=
  ⟨rfl, c9_complete_monotone ⟨10, 10, "m", 100, 0, 0, true⟩ 0 3 none none none 1 2 3 rfl⟩

/-- Claim C10 (confirmed): passing the empty string as the optional
message to `increment`, `set` or `finish` leaves the stored message
unchanged in the written state; the message is replaced exactly when the
supplied string is non-empty. -/
theorem c10_empty_message (s : ProgressState) (amount value n₁ n₂ n₃ : ℤ) :
    ((applyIncrement s amount (some "") n₁).message = s.message ∧
     (applySet s value (some "") n₂).message = s.message ∧
     (applyFinish s (some "") n₃).message = s.message) ∧
    (∀ m : String, m ≠ "" →
      (applyIncrement s amount (some m) n₁).message = m ∧
      (applySet s value (some m) n₂).message = m ∧
      (applyFinish s (some m) n₃).message = m) := by
  constructor
  · exact ⟨by simp [applyIncrement, applyMessage], by simp [applySet, applyMessage],
           by simp [applyFinish, applyMessage]⟩
  · intro m hm
    exact ⟨by simp [applyIncrement, applyMessage, hm], by simp [applySet, applyMessage, hm],
           by simp [applyFinish, applyMessage, hm]⟩

/-- Witness for `c10_empty_message` at a concrete state. -/
theorem c10_witness :
    ((applyIncrement ⟨10, 3, "keep", 30, 0, 0, false⟩ 1 (some "") 1).message = "keep" ∧
     (applySet ⟨10, 3, "keep", 30, 0, 0, false⟩ 4 (some "") 1).message = "keep" ∧
     (applyFinish ⟨10, 3, "keep", 30, 0, 0, false⟩ (some "") 1).message = "keep") ∧
    ("x" ≠ "") ∧
    ((applyIncrement ⟨10, 3, "keep", 30, 0, 0, false⟩ 1 (some "x") 1).message = "x" ∧
     (applySet ⟨10, 3, "keep", 30, 0, 0, false⟩ 4 (some "x") 1).message = "x" ∧
     (applyFinish ⟨10, 3, "keep", 30, 0, 0, false⟩ (some "x") 1).message = "x") :=
  ⟨(c10_empty_message ⟨10, 3, "keep", 30, 0, 0, false⟩ 1 4 1 1 1).1,
   by decide,
   (c10_empty_message ⟨10, 3, "keep", 30, 0, 0, false⟩ 1 4 1 1 1).2 "x" (by decide)⟩

/-- Path resolution fails with the id validation error for a config
holding an invalid, non-empty id and no custom path. -/
theorem getProgressFilePath_id_error {i e : String} (hne : i ≠ "")
    (hv : validateId i = .error e) :
    getProgressFilePath ⟨some i, none⟩ = .error e := by
  simp [getProgressFilePath, jsOrStr, hne, hv]

/-- Claim C3, counterexample: the `MultiProgress` constructor never
validates the group identifier — with the invalid id `"../evil"` it
builds the aggregate path from the raw id and proceeds to probe and
write that path (here: creating the empty aggregate), instead of
rejecting with a `ValidationError` before filesystem access. -/
theorem c3_counterexample :
    (validateId "../evil").isOk = false ∧
    (MultiProgress.construct ⟨some "../evil", none⟩ ⟨fun _ => none, none⟩ 0).1.filePath =
      "/tmp/progress-multi-../evil.json" ∧
    (MultiProgress.construct ⟨some "../evil", none⟩ ⟨fun _ => none, none⟩ 0).2.agg =
      some ⟨[], ⟨0, 0⟩⟩ := by
  refine ⟨by decide, by decide, ?_⟩
  rfl

/-- Claim C3 (amended): every single-tracker operation rejects a
non-empty identifier failing `[A-Za-z0-9_-]`/length-255 with the
validation error, for every file-system state alike (so no read or
write can have occurred); a member id inside a group is validated the
same way through the member's composite id `groupId-trackerId` when the
member tracker is constructed by `add`.  But two divergences from the
claim: an empty identifier is not rejected — it silently falls back to
the id `'default'` — and the group identifier of the `MultiProgress`
constructor is never validated at all (the constructor touches the
filesystem for every id, see `c3_counterexample`). -/
theorem c3_id_validation (i e : String) (hne : i ≠ "")
    (hv : validateId i = .error e) :
    (∀ (fs : FS) (now total : ℤ) (msg : String), ¬ total ≤ 0 →
      init total msg ⟨some i, none⟩ fs now = .error e) ∧
    (∀ (fs : FS) (now amount : ℤ) (m : Option String), ¬ amount < 0 →
      increment amount m ⟨some i, none⟩ fs now = .error e) ∧
    (∀ (fs : FS) (now value : ℤ) (m : Option String), ¬ value < 0 →
      setOp value m ⟨some i, none⟩ fs now = .error e) ∧
    (∀ (fs : FS) (now : ℤ) (m : Option String),
      finish m ⟨some i, none⟩ fs now = .error e) ∧
    (∀ fs : FS, getOp ⟨some i, none⟩ fs = .error e) ∧
    (∀ fs : FS, clearOp ⟨some i, none⟩ fs = .error e) ∧
    (∀ fs : FS, getOp ⟨some "", none⟩ fs = getOp ⟨some "default", none⟩ fs) ∧
    (∀ (mp : MultiProgress) (w : MPWorld) (tc : MultiProgressTrackerConfig)
      (genId : String) (now : ℤ) (e' : String), ¬ tc.total ≤ 0 →
      validateId (mp.id ++ "-" ++ jsOrStr tc.trackerId genId) = .error e' →
      MultiProgress.add mp tc genId w now =
        .error ("Failed to initialize progress tracker: " ++ e')) ∧
    (∀ (gcfg : MultiProgressConfig) (w : MPWorld) (now : ℤ), w.agg = none →
      (MultiProgress.construct gcfg w now).2.agg =
        some ⟨[], ⟨now, now⟩⟩) := by
  have hpe := getProgressFilePath_id_error hne hv
  refine ⟨?_, ?_, ?_, ?_, ?_, ?_, ?_, ?_, ?_⟩
  · intro fs now total msg htot
    simp [init, htot, hpe]
  · intro fs now amount m hamt
    simp [increment, hamt, hpe]
  · intro fs now value m hval
    simp [setOp, hval, hpe]
  · intro fs now m
    simp [finish, hpe]
  · intro fs
    simp [getOp, hpe]
  · intro fs
    simp [clearOp, hpe]
  · intro fs
    rfl
  · intro mp w tc genId now e' htot hv'
    have hcne : mp.id ++ "-" ++ jsOrStr tc.trackerId genId ≠ "" := by
      intro h
      have := congrArg String.length h
      simp [String.length_append] at this
      exact absurd this.1.2 (by decide)
    have hpe' := getProgressFilePath_id_error hcne hv'
    simp [MultiProgress.add, memberConfig, init, htot, hpe']
  · intro gcfg w now hagg
    simp [MultiProgress.construct, hagg]

/-- Witness for `c3_id_validation` at the invalid id `"a/b"`. -/
theorem c3_witness :
    ("a/b" ≠ "") ∧
    validateId "a/b" =
      .error "ID must contain only alphanumeric characters, hyphens, and underscores" ∧
    (∀ fs : FS, getOp ⟨some "a/b", none⟩ fs =
      .error "ID must contain only alphanumeric characters, hyphens, and underscores") :=
  ⟨by decide, by decide,
   (c3_id_validation "a/b"
      "ID must contain only alphanumeric characters, hyphens, and underscores"
      (by decide) (by decide)).2.2.2.2.1⟩

/-- Claim C5 (code bug): `readProgress` checks only that `total` and
`current` are numbers — a stored object with the `message`, `percentage`,
`startTime`, `updatedTime` and `complete` fields missing (or of wrong
type) decodes successfully and is passed through as the entity, and
`MultiProgress.readState` accepts any parsed JSON whatsoever, contrary
to the required reject-on-structural-mismatch behaviour. -/
theorem c5_decode_unchecked :
    readProgress (some (.valid (.jobj [("total", .num 100), ("current", .num 42)]))) =
      .ok (.jobj [("total", .num 100), ("current", .num 42)]) ∧
    jget [("total", .num 100), ("current", .num 42)] "message" = none ∧
    jget [("total", .num 100), ("current", .num 42)] "complete" = none ∧
    readProgress (some (.valid (.jobj
      [("total", .num 1), ("current", .num 0), ("message", .num 5),
       ("percentage", .str "x"), ("startTime", .jbool true),
       ("updatedTime", .jnull), ("complete", .str "yes")]))) =
      .ok (.jobj
        [("total", .num 1), ("current", .num 0), ("message", .num 5),
         ("percentage", .str "x"), ("startTime", .jbool true),
         ("updatedTime", .jnull), ("complete", .str "yes")]) ∧
    readStateJson (some (.valid (.jprim (.str "nonsense")))) =
      .ok (.jprim (.str "nonsense")) ∧
    readStateJson (some (.valid (.jobj [("trackers", .str "nonsense")]))) =
      .ok (.jobj [("trackers", .str "nonsense")]) :=
  ⟨rfl, rfl, rfl, rfl, rfl, rfl⟩

/-- A 10001-character message, one over `MAX_MESSAGE_LENGTH`. -/
def longMsg : String := String.mk (List.replicate 10001 'a')

/-- Length of `longMsg`. -/
theorem longMsg_length : longMsg.length = 10001 := by
  show (List.replicate 10001 'a').length = 10001
  exact List.length_replicate 10001 'a'

/-- The long message is not empty. -/
theorem longMsg_ne_empty : longMsg ≠ "" := by
  intro h
  have := longMsg_length
  rw [h] at this
  exact absurd this (by decide)

/-- Claim C7, counterexample: `validateMessage` would reject the
10001-character message, but no mutation ever calls it — `increment`
accepts the over-length message, stores it, and no `ValidationError`
occurs. -/
theorem c7_counterexample :
    validateMessage longMsg = .error "Message exceeds maximum length (10000 characters)" ∧
    (increment 1 (some longMsg) ⟨some "t", none⟩
        (fun p => if p = "/tmp/progress-t.json" then
          some ⟨10, 0, "m", 0, 0, 0, false⟩ else none) 1).map Prod.fst =
      .ok (applyIncrement ⟨10, 0, "m", 0, 0, 0, false⟩ 1 (some longMsg) 1) ∧
    (applyIncrement ⟨10, 0, "m", 0, 0, 0, false⟩ 1 (some longMsg) 1).message = longMsg := by
  refine ⟨?_, ?_, ?_⟩
  · simp [validateMessage, MAX_MESSAGE_LENGTH, longMsg_length]
  · rw [increment_ok 1 (some longMsg) 1 (by decide)
      (by decide : (fun p => if p = "/tmp/progress-t.json" then
        some (⟨10, 0, "m", 0, 0, 0, false⟩ : ProgressState) else none)
          "/tmp/progress-t.json" = some ⟨10, 0, "m", 0, 0, 0, false⟩)
      (by decide)]
    rfl
  · simp [applyIncrement, applyMessage, longMsg_ne_empty]

/-- Claim C7 (amended): the source defines `MAX_MESSAGE_LENGTH` and a
`validateMessage` helper that rejects longer messages, but no operation
invokes it: `init`, `increment`, `set` and `finish` accept and store a
message of any length, so no mutation fails with a `ValidationError`
for an over-length message. -/
theorem c7_no_message_length_check (s : ProgressState) (config : ProgressConfig)
    (fs : FS) (path : String) (total amount now : ℤ)
    (hpath : getProgressFilePath config = .ok path) (hfile : fs path = some s)
    (htot : 0 < total) (hamt : 0 ≤ amount) :
    ∀ m : String,
      (init total m config fs now).map Prod.fst =
        .ok ⟨total, 0, m, 0, now, now, false⟩ ∧
      (increment amount (some m) config fs now).map Prod.fst =
        .ok (applyIncrement s amount (some m) now) ∧
      (setOp amount (some m) config fs now).map Prod.fst =
        .ok (applySet s amount (some m) now) ∧
      (finish (some m) config fs now).map Prod.fst =
        .ok (applyFinish s (some m) now) := by
  intro m
  refine ⟨?_, ?_, ?_, ?_⟩
  · rw [init_ok total m fs now hpath htot]
    rfl
  · rw [increment_ok amount (some m) now hpath hfile hamt]
    rfl
  · rw [setOp_ok amount (some m) now hpath hfile hamt]
    rfl
  · rw [finish_ok (some m) now hpath hfile]
    rfl

/-- Witness for `c7_no_message_length_check` at the over-length message. -/
theorem c7_witness :
    getProgressFilePath ⟨some "t", none⟩ = .ok "/tmp/progress-t.json" ∧
    (0:ℤ) < 10 ∧ (0:ℤ) ≤ 1 ∧
    (increment 1 (some longMsg) ⟨some "t", none⟩
        (fun p => if p = "/tmp/progress-t.json" then
          some ⟨10, 0, "m", 0, 0, 0, false⟩ else none) 5).map Prod.fst =
      .ok (applyIncrement ⟨10, 0, "m", 0, 0, 0, false⟩ 1 (some longMsg) 5) :=
  ⟨by decide, by decide, by decide,
   ((c7_no_message_length_check ⟨10, 0, "m", 0, 0, 0, false⟩ ⟨some "t", none⟩
      (fun p => if p = "/tmp/progress-t.json" then
        some ⟨10, 0, "m", 0, 0, 0, false⟩ else none)
      "/tmp/progress-t.json" 10 1 5 (by decide) (by decide) (by decide)
      (by decide)) longMsg).2.1⟩

/-- Claim C8, counterexample to "only when the cumulative bytes since
the last notification exceed the threshold": with threshold 2 and a
single 2-byte chunk, the accumulated 2 bytes merely reach (do not
exceed) the threshold, yet a notification is emitted. -/
theorem c8_counterexample :
    (transformStep ⟨some ⟨10, 0, "m", 0, 0, 0, false⟩, 2, 0, 0⟩ 2 1).map
      (fun r => (r.2, r.1.lastEmittedBytes)) =
      .ok (some ⟨10, 2, "m", 20, 0, 1, false⟩, 2) ∧
    ¬ ((2 : ℕ) > 2) := by
  constructor
  · rfl
  · decide

/-- Claim C8 (amended): on a chunk, a notification carrying the freshly
written state is emitted exactly when the threshold is zero or the bytes
accumulated since the last notification reach or exceed it (the source's
`bytesSinceLastEmit >= updateInterval`); at end-of-stream `_flush` calls
`finish()` and emits the finished (`complete = true`,
`current = total`) state with no throttling condition. -/
theorem c8_throttle_and_flush (t : ProgressTransform) (st : ProgressState)
    (chunk : ℕ) (now : ℤ) (hfile : t.file = some st) :
    ((t.updateInterval = 0 ∨ t.bytesProcessed + chunk ≥ t.lastEmittedBytes + t.updateInterval) →
      transformStep t chunk now =
        .ok ({ t with
                file := some (applySet st ((t.bytesProcessed + chunk : ℕ) : ℤ) none now)
                bytesProcessed := t.bytesProcessed + chunk
                lastEmittedBytes := t.bytesProcessed + chunk },
             some (applySet st ((t.bytesProcessed + chunk : ℕ) : ℤ) none now))) ∧
    (¬ (t.updateInterval = 0 ∨ t.bytesProcessed + chunk ≥ t.lastEmittedBytes + t.updateInterval) →
      transformStep t chunk now =
        .ok ({ t with
                file := some (applySet st ((t.bytesProcessed + chunk : ℕ) : ℤ) none now)
                bytesProcessed := t.bytesProcessed + chunk },
             none)) ∧
    transformFlush t now =
      .ok ({ t with file := some (applyFinish st none now) }, applyFinish st none now) ∧
    (applyFinish st none now).complete = true ∧
    (applyFinish st none now).current = st.total := by
  refine ⟨?_, ?_, ?_, rfl, rfl⟩
  · intro h
    simp only [transformStep, hfile]
    rw [if_pos h]
  · intro h
    simp only [transformStep, hfile]
    rw [if_neg h]
  · simp only [transformFlush, hfile]

/-- Witness for `c8_throttle_and_flush`: a 5-byte chunk against a
3-byte threshold triggers an emission, and the flush emits the complete
state. -/
theorem c8_witness :
    ((⟨some ⟨10, 0, "m", 0, 0, 0, false⟩, 3, 0, 0⟩ : ProgressTransform).file =
      some ⟨10, 0, "m", 0, 0, 0, false⟩) ∧
    ((3 : ℕ) = 0 ∨ (0 : ℕ) + 5 ≥ 0 + 3) ∧
    transformStep ⟨some ⟨10, 0, "m", 0, 0, 0, false⟩, 3, 0, 0⟩ 5 1 =
      .ok ({ file := some (applySet ⟨10, 0, "m", 0, 0, 0, false⟩ ((5 : ℕ) : ℤ) none 1)
             updateInterval := 3, bytesProcessed := 5, lastEmittedBytes := 5 },
           some (applySet ⟨10, 0, "m", 0, 0, 0, false⟩ ((5 : ℕ) : ℤ) none 1)) :=
  ⟨rfl, by decide,
   (c8_throttle_and_flush ⟨some ⟨10, 0, "m", 0, 0, 0, false⟩, 3, 0, 0⟩
      ⟨10, 0, "m", 0, 0, 0, false⟩ 5 1 rfl).1 (by decide)⟩

/-- Key lookup after an in-place replacement hit. -/
theorem lookup_map_replace {α : Type} (l : List (String × α)) (k : String) (v : α)
    (h : l.any (fun kv => kv.1 = k) = true) :
    (l.map (fun kv => if kv.1 = k then (k, v) else kv)).lookup k = some v := by
  induction l with
  | nil => simp at h
  | cons kv tl ih =>
    obtain ⟨k', v'⟩ := kv
    by_cases hk : k' = k
    · subst hk
      simp [List.lookup_cons]
    · have htl : tl.any (fun kv => kv.1 = k) = true := by
        simp only [List.any_cons, Bool.or_eq_true, decide_eq_true_eq] at h
        rcases h with h | h
        · exact absurd h hk
        · simpa using h
      have hbeq : (k == k') = false := by simp [Ne.symm hk]
      simp only [List.map_cons]
      rw [if_neg (by simpa using hk)]
      rw [List.lookup_cons]
      simp only [hbeq]
      exact ih htl

/-- Key lookup after an append of a fresh binding. -/
theorem lookup_append_single {α : Type} (l : List (String × α)) (k : String) (v : α) :
    (l ++ [(k, v)]).lookup k = some v ∨
      ∃ w, l.lookup k = some w ∧ (l ++ [(k, v)]).lookup k = some w := by
  induction l with
  | nil => left; simp [List.lookup_cons]
  | cons kv tl ih =>
    obtain ⟨k', v'⟩ := kv
    by_cases hk : (k == k') = true
    · right
      exact ⟨v', by simp [List.lookup_cons, hk], by simp [List.lookup_cons, hk]⟩
    · have hbeq : (k == k') = false := by simpa using hk
      rcases ih with h | ⟨w, hw1, hw2⟩
      · left
        rw [List.cons_append, List.lookup_cons]
        simpa [hbeq] using h
      · right
        refine ⟨w, ?_, ?_⟩
        · rw [List.lookup_cons]
          simpa [hbeq] using hw1
        · rw [List.cons_append, List.lookup_cons]
          simpa [hbeq] using hw2

/-- When the key is absent, appending it makes lookup find it. -/
theorem lookup_append_single_of_not_mem {α : Type} (l : List (String × α)) (k : String)
    (v : α) (h : l.lookup k = none) :
    (l ++ [(k, v)]).lookup k = some v := by
  rcases lookup_append_single l k v with h' | ⟨w, hw1, _⟩
  · exact h'
  · rw [h] at hw1
    exact Option.noConfusion hw1

/-- Lookup of an absent key returns none when no entry has that key. -/
theorem lookup_none_of_any_false {α : Type} (l : List (String × α)) (k : String)
    (h : l.any (fun kv => kv.1 = k) = false) :
    l.lookup k = none := by
  induction l with
  | nil => rfl
  | cons kv tl ih =>
    obtain ⟨k', v'⟩ := kv
    simp only [List.any_cons, Bool.or_eq_false_iff, decide_eq_false_iff_not] at h
    have hbeq : (k == k') = false := by simp [Ne.symm h.1]
    rw [List.lookup_cons]
    simp only [hbeq]
    exact ih (by simpa using h.2)

/-- Insert-or-replace followed by lookup on the same key finds the new
value. -/
theorem objGet_objSet {α : Type} (l : List (String × α)) (k : String) (v : α) :
    objGet (objSet l k v) k = some v := by
  unfold objGet objSet
  rcases hany : l.any (fun kv => kv.1 = k) with hfalse | htrue
  · rw [if_neg (by simp [hany])]
    exact lookup_append_single_of_not_mem l k v (lookup_none_of_any_false l k hany)
  · rw [if_pos (by simp [hany])]
    exact lookup_map_replace l k v hany

/-- Unfolding of a successful `clear`. -/
theorem clearOp_ok {config : ProgressConfig} {path : String} (fs : FS)
    (hpath : getProgressFilePath config = .ok path) :
    clearOp config fs = .ok (fun p => if p = path then none else fs p) := by
  simp [clearOp, hpath]

/-- Unfolding of `MultiProgress.add` on a fresh member when the
aggregate file is readable: the member file is initialized and the
member's fresh snapshot is mirrored into the aggregate. -/
theorem add_fresh (mp : MultiProgress) (total : ℤ) (msg tid gen : String)
    (A : MultiProgressState) (fs0 : FS) (now : ℤ)
    (htid : tid ≠ "")
    (hvid : validateId (mp.id ++ "-" ++ tid) = .ok (mp.id ++ "-" ++ tid))
    (htot : 0 < total) :
    MultiProgress.add mp ⟨total, msg, some tid⟩ gen ⟨fs0, some A⟩ now =
      .ok ({ mp with trackers := objSet mp.trackers tid (memberConfig mp.id tid) },
           ⟨fun p => if p = pathJoin tmpdir ("progress-" ++ (mp.id ++ "-" ++ tid) ++ ".json")
                     then some ⟨total, 0, msg, 0, now, now, false⟩ else fs0 p,
            some ⟨objSet A.trackers tid ⟨total, 0, msg, 0, now, now, false⟩,
                  ⟨A.meta.created, now⟩⟩⟩,
           memberConfig mp.id tid) := by
  have hpath : getProgressFilePath (memberConfig mp.id tid) =
      .ok (pathJoin tmpdir ("progress-" ++ (mp.id ++ "-" ++ tid) ++ ".json")) :=
    getProgressFilePath_id hvid
  have hinit := init_ok total msg fs0 now hpath htot
  have hget : getOp (memberConfig mp.id tid)
      (fun p => if p = pathJoin tmpdir ("progress-" ++ (mp.id ++ "-" ++ tid) ++ ".json")
                then some ⟨total, 0, msg, 0, now, now, false⟩ else fs0 p) =
      .ok ⟨total, 0, msg, 0, now, now, false⟩ :=
    getOp_ok hpath (if_pos rfl)
  simp only [MultiProgress.add, jsOrStr, if_neg htid, hinit, hget]

/-- Unfolding of `MultiProgress.done` for a single in-process member
whose file is readable, when the aggregate file is readable too. -/
theorem done_single (gid gpath tid : String) (tcfg : ProgressConfig) (path : String)
    (st : ProgressState) (fs : FS) (A : MultiProgressState) (now : ℤ)
    (hpath : getProgressFilePath tcfg = .ok path) (hfile : fs path = some st) :
    MultiProgress.done ⟨gid, gpath, [(tid, tcfg)]⟩ ⟨fs, some A⟩ now =
      .ok (⟨gid, gpath, [(tid, tcfg)]⟩,
           ⟨fun p => if p = path then some (applyFinish st none now) else fs p,
            some ⟨objSet A.trackers tid (applyFinish st none now),
                  ⟨A.meta.created, now⟩⟩⟩) := by
  have hfin := finish_ok none now hpath hfile
  have hget : getOp tcfg
      (fun p => if p = path then some (applyFinish st none now) else fs p) =
      .ok (applyFinish st none now) :=
    getOp_ok hpath (if_pos rfl)
  simp only [MultiProgress.done, doneFold, List.foldl, hfin, hget]

/-- Claim C4 (confirmed): after `add()` into a fresh group and a direct
`increment()` on the returned member handle, the group's `status()`
still returns the member's pre-increment snapshot (the freshly
initialized state mirrored at `add` time); after `done()`, `status()`
shows that member with `complete = true` and `current = total`. -/
theorem c4_mirror_staleness (gid tid gpath msg gen : String) (total amount : ℤ)
    (A : MultiProgressState) (fs0 : FS) (now1 now2 now3 : ℤ)
    (mp1 : MultiProgress) (w1 : MPWorld) (tcfg : ProgressConfig)
    (st1 : ProgressState) (fs2 : FS)
    (htid : tid ≠ "")
    (hvid : validateId (gid ++ "-" ++ tid) = .ok (gid ++ "-" ++ tid))
    (htot : 0 < total) (hamt : 0 ≤ amount)
    (hadd : MultiProgress.add ⟨gid, gpath, []⟩ ⟨total, msg, some tid⟩ gen
      ⟨fs0, some A⟩ now1 = .ok (mp1, w1, tcfg))
    (hinc : increment amount none tcfg w1.fs now2 = .ok (st1, fs2)) :
    (MultiProgress.status ⟨fs2, w1.agg⟩).map (fun aggSt => objGet aggSt.trackers tid) =
      .ok (some ⟨total, 0, msg, 0, now1, now1, false⟩) ∧
    st1 = applyIncrement ⟨total, 0, msg, 0, now1, now1, false⟩ amount none now2 ∧
    (∀ r2 : MultiProgress × MPWorld,
      MultiProgress.done mp1 ⟨fs2, w1.agg⟩ now3 = .ok r2 →
      (MultiProgress.status r2.2).map
          (fun aggSt => (objGet aggSt.trackers tid).map
            (fun st => (st.complete, st.current))) =
        .ok (some (true, total))) := by
  have hpath' : getProgressFilePath (memberConfig gid tid) =
      .ok (pathJoin tmpdir ("progress-" ++ (gid ++ "-" ++ tid) ++ ".json")) :=
    getProgressFilePath_id hvid
  rw [add_fresh ⟨gid, gpath, []⟩ total msg tid gen A fs0 now1 htid hvid htot] at hadd
  simp only [Except.ok.injEq, Prod.mk.injEq] at hadd
  obtain ⟨h1, h2, h3⟩ := hadd
  subst h1
  subst h2
  subst h3
  dsimp only at hinc ⊢
  have hfile1 : (fun p =>
      if p = pathJoin tmpdir ("progress-" ++ (gid ++ "-" ++ tid) ++ ".json")
      then some (⟨total, 0, msg, 0, now1, now1, false⟩ : ProgressState) else fs0 p)
      (pathJoin tmpdir ("progress-" ++ (gid ++ "-" ++ tid) ++ ".json")) =
      some ⟨total, 0, msg, 0, now1, now1, false⟩ := if_pos rfl
  rw [increment_ok amount none now2 hpath' hfile1 hamt] at hinc
  simp only [Except.ok.injEq, Prod.mk.injEq] at hinc
  obtain ⟨h4, h5⟩ := hinc
  subst h4
  subst h5
  refine ⟨?_, rfl, ?_⟩
  · simp only [MultiProgress.status, Except.map]
    rw [objGet_objSet]
  · intro r2 hdone
    have hms : objSet ([] : List (String × ProgressConfig)) tid (memberConfig gid tid) =
        [(tid, memberConfig gid tid)] := rfl
    rw [hms] at hdone
    have hfile2 : (fun p =>
        if p = pathJoin tmpdir ("progress-" ++ (gid ++ "-" ++ tid) ++ ".json")
        then some (applyIncrement ⟨total, 0, msg, 0, now1, now1, false⟩ amount none now2)
        else (fun p =>
          if p = pathJoin tmpdir ("progress-" ++ (gid ++ "-" ++ tid) ++ ".json")
          then some (⟨total, 0, msg, 0, now1, now1, false⟩ : ProgressState) else fs0 p) p)
        (pathJoin tmpdir ("progress-" ++ (gid ++ "-" ++ tid) ++ ".json")) =
        some (applyIncrement ⟨total, 0, msg, 0, now1, now1, false⟩ amount none now2) :=
      if_pos rfl
    rw [done_single gid gpath tid (memberConfig gid tid) _ _ _
      ⟨objSet A.trackers tid ⟨total, 0, msg, 0, now1, now1, false⟩,
       ⟨A.meta.created, now1⟩⟩ now3 hpath' hfile2] at hdone
    simp only [Except.ok.injEq] at hdone
    subst hdone
    simp only [MultiProgress.status, Except.map]
    rw [objGet_objSet]
    rfl

/-- Witness for `c4_mirror_staleness` on a concrete scenario: group
`"g"`, member `"t"` with `total = 10`, a direct `increment(3)`, then
`done()`. -/
theorem c4_witness :
    ("t" : String) ≠ "" ∧
    validateId ("g" ++ "-" ++ "t") = .ok ("g" ++ "-" ++ "t") ∧
    (0:ℤ) < 10 ∧ (0:ℤ) ≤ 3 ∧
    MultiProgress.add ⟨"g", "/tmp/progress-multi-g.json", []⟩ ⟨10, "m", some "t"⟩ "gen"
      ⟨fun _ => none, some ⟨[], ⟨0, 0⟩⟩⟩ 1 =
      .ok (⟨"g", "/tmp/progress-multi-g.json", [("t", ⟨some "g-t", none⟩)]⟩,
           ⟨fun p => if p = "/tmp/progress-g-t.json"
                     then some ⟨10, 0, "m", 0, 1, 1, false⟩ else (fun _ => none) p,
            some ⟨[("t", ⟨10, 0, "m", 0, 1, 1, false⟩)], ⟨0, 1⟩⟩⟩,
           ⟨some "g-t", none⟩) ∧
    increment 3 none ⟨some "g-t", none⟩
      (fun p => if p = "/tmp/progress-g-t.json"
                then some ⟨10, 0, "m", 0, 1, 1, false⟩ else (fun _ => none) p) 2 =
      .ok (⟨10, 3, "m", 30, 1, 2, false⟩,
           fun p => if p = "/tmp/progress-g-t.json"
                    then some ⟨10, 3, "m", 30, 1, 2, false⟩
                    else (fun p => if p = "/tmp/progress-g-t.json"
                      then some ⟨10, 0, "m", 0, 1, 1, false⟩ else (fun _ => none) p) p) ∧
    (MultiProgress.status
        ⟨fun p => if p = "/tmp/progress-g-t.json"
                  then some ⟨10, 3, "m", 30, 1, 2, false⟩
                  else (fun p => if p = "/tmp/progress-g-t.json"
                    then some ⟨10, 0, "m", 0, 1, 1, false⟩ else (fun _ => none) p) p,
          some ⟨[("t", ⟨10, 0, "m", 0, 1, 1, false⟩)], ⟨0, 1⟩⟩⟩).map
        (fun aggSt => objGet aggSt.trackers "t") =
      .ok (some ⟨10, 0, "m", 0, 1, 1, false⟩) :=
  ⟨by decide, by decide, by decide, by decide, rfl, rfl,
   (c4_mirror_staleness "g" "t" "/tmp/progress-multi-g.json" "m" "gen" 10 3
      ⟨[], ⟨0, 0⟩⟩ (fun _ => none) 1 2 3 _ _ _ _ _
      (by decide) (by decide) (by decide) (by decide) rfl rfl).1⟩

/-- Claim C6 (amended): when the aggregate file cannot be read, the
group operations neither roll back nor fail the member mutation — `add`
still initializes the member file and returns the handle, `remove`
still clears the member file, `done` still finishes every member — but
the mirror failure is *not* reported: the composite results (`ok` with
no further information, or the bare handle) are exactly those of the
fully-mirrored path, so callers cannot detect staleness from them.  (A
mirror *write* failure, by contrast, escapes `writeState` as a thrown
exception rather than a composite result.) -/
theorem c6_mirror_best_effort (mp : MultiProgress) (w : MPWorld) (now : ℤ)
    (hagg : w.agg = none) :
    (∀ (tc : MultiProgressTrackerConfig) (genId : String) (st : ProgressState) (fs' : FS),
      init tc.total tc.message (memberConfig mp.id (jsOrStr tc.trackerId genId)) w.fs now =
        .ok (st, fs') →
      MultiProgress.add mp tc genId w now =
        .ok ({ mp with trackers := (objSet mp.trackers (jsOrStr tc.trackerId genId)
                 (memberConfig mp.id (jsOrStr tc.trackerId genId))) },
             { w with fs := fs' },
             memberConfig mp.id (jsOrStr tc.trackerId genId))) ∧
    (∀ (trackerId : String) (tcfg : ProgressConfig) (path : String),
      objGet mp.trackers trackerId = some tcfg →
      getProgressFilePath tcfg = .ok path →
      MultiProgress.remove mp trackerId w now =
        .ok ({ mp with trackers := objDelete mp.trackers trackerId },
             { w with fs := fun p => if p = path then none else w.fs p }) ∧
      (fun p => if p = path then none else w.fs p) path = none ∧
      ({ w with fs := fun p => if p = path then none else w.fs p } : MPWorld).agg = none) ∧
    (MultiProgress.done mp w now =
      .ok (mp, { w with fs := doneFold mp.trackers w.fs now }) ∧
     ({ w with fs := doneFold mp.trackers w.fs now } : MPWorld).agg = none) := by
  refine ⟨?_, ?_, ?_, ?_⟩
  · intro tc genId st fs' hinit
    simp only [MultiProgress.add, hinit, hagg]
  · intro trackerId tcfg path hlook hpath
    have hclear := clearOp_ok w.fs hpath
    refine ⟨?_, if_pos rfl, hagg⟩
    simp only [MultiProgress.remove, objGet] at hlook ⊢
    simp only [hlook, hclear, hagg]
  · simp only [MultiProgress.done, hagg]
  · exact hagg

/-- Witness for `c6_mirror_best_effort`: a group whose aggregate file
has been deleted still removes a member successfully (member file
cleared, plain `ok` result). -/
theorem c6_witness :
    ((⟨fun p => if p = "/tmp/progress-g-t.json" then some ⟨10, 3, "m", 30, 0, 1, false⟩
        else none, none⟩ : MPWorld)).agg = none ∧
    objGet [("t", memberConfig "g" "t")] "t" = some (memberConfig "g" "t") ∧
    getProgressFilePath (memberConfig "g" "t") = .ok "/tmp/progress-g-t.json" ∧
    (MultiProgress.remove ⟨"g", "/tmp/progress-multi-g.json", [("t", memberConfig "g" "t")]⟩
        "t"
        ⟨fun p => if p = "/tmp/progress-g-t.json" then some ⟨10, 3, "m", 30, 0, 1, false⟩
          else none, none⟩ 9 =
      .ok (⟨"g", "/tmp/progress-multi-g.json",
             objDelete [("t", memberConfig "g" "t")] "t"⟩,
           ⟨fun p => if p = "/tmp/progress-g-t.json" then none
             else (fun p => if p = "/tmp/progress-g-t.json"
               then some ⟨10, 3, "m", 30, 0, 1, false⟩ else none) p, none⟩) ∧
      (fun p : String => if p = "/tmp/progress-g-t.json" then none
        else (fun p => if p = "/tmp/progress-g-t.json"
          then some (⟨10, 3, "m", 30, 0, 1, false⟩ : ProgressState) else none) p)
        "/tmp/progress-g-t.json" = none ∧
      ((⟨fun p => if p = "/tmp/progress-g-t.json" then none
          else (fun p => if p = "/tmp/progress-g-t.json"
            then some ⟨10, 3, "m", 30, 0, 1, false⟩ else none) p, none⟩ : MPWorld)).agg =
        none) :=
  ⟨rfl, by decide, by decide,
   (c6_mirror_best_effort ⟨"g", "/tmp/progress-multi-g.json", [("t", memberConfig "g" "t")]⟩
      ⟨fun p => if p = "/tmp/progress-g-t.json" then some ⟨10, 3, "m", 30, 0, 1, false⟩
        else none, none⟩ 9 rfl).2.1 "t" (memberConfig "g" "t") "/tmp/progress-g-t.json"
      (by decide) (by decide)⟩

/-- Claim C6, counterexample to "the mirror failure is reported as part
of the operation's composite result": with the aggregate file gone, the
mirror cannot be refreshed, yet `remove` returns a plain success — the
same `ok void` a fully-mirrored removal returns — carrying no report of
the failure. -/
theorem c6_counterexample :
    (MultiProgress.remove ⟨"g", "/tmp/progress-multi-g.json", [("t", memberConfig "g" "t")]⟩
        "t"
        ⟨fun p => if p = "/tmp/progress-g-t.json" then some ⟨10, 3, "m", 30, 0, 1, false⟩
          else none, none⟩ 9).toOption.map
      (fun r => (r.2.fs "/tmp/progress-g-t.json", r.2.agg)) = some (none, none) := by
  rfl

end CliProgress
